import Mathlib

/-!
Verification of the hormone status modeling pipeline of
`saliva-hormone-ai-tracker` (`model.py`), shallowly embedded in Lean 4.

Hormone values are embedded as rationals (`ℚ`); the Python floats in the
source carry exact decimal literals, and every claim under study is about
exact band comparisons, so `ℚ` is a faithful carrier.  Randomness
(`np.random` / `random` draws and the wall clock `datetime.now()`) is
embedded by passing each drawn value explicitly as an argument to the
function that consumes it; a Gaussian draw has full support, so every
rational value of a noise argument is a possible run of the program.
The fitted scikit-learn classifier cannot be embedded; it is abstracted
as a record of functions (`Classifier`), and all theorems about the
predictor quantify over it or hypothesise only what scikit-learn
guarantees (a probability vector).  The static `get_health_insights`
lookup table is not referenced by any claim and is omitted from the
embedding of `predict_status`'s result record.
-/

attribute [local semireducible] Rat.add Rat.mul Rat.inv Rat.sub Rat.ofScientific

/-- Gender context value, `'Male' | 'Female'` in the source. -/
inductive Gender where
  | Male
  | Female
  deriving DecidableEq

/-- Time-of-day context value, `'Morning' | 'Afternoon' | 'Evening'`. -/
inductive TimeOfDay where
  | Morning
  | Afternoon
  | Evening
  deriving DecidableEq

/-- `STATUS_LEVELS` (model.py line 70): the four canonical labels. -/
def STATUS_LEVELS : List String :=
  ["Normal", "Mild Imbalance", "Moderate Imbalance", "Severe Imbalance"]

/-- Cortisol block of `classify_status` (model.py lines 243-258): the
score contribution of cortisol, keyed by time of day. -/
def cortisolEval (cortisol : ℚ) (time_of_day : TimeOfDay) : ℕ :=
  match time_of_day with
  | .Morning =>
      if cortisol < 3.0 ∨ cortisol > 12.0 then 2
      else if cortisol < 4.0 ∨ cortisol > 10.0 then 1
      else 0
  | .Afternoon =>
      if cortisol < 0.5 ∨ cortisol > 6.0 then 2
      else if cortisol < 1.0 ∨ cortisol > 4.0 then 1
      else 0
  | .Evening =>
      if cortisol < 0.2 ∨ cortisol > 4.0 then 2
      else if cortisol < 0.3 ∨ cortisol > 2.0 then 1
      else 0

/-- Estrogen block of `classify_status` (model.py lines 260-270). -/
def estrogenEval (estrogen : ℚ) (gender : Gender) : ℕ :=
  match gender with
  | .Male =>
      if estrogen < 0.5 ∨ estrogen > 6.0 then 2
      else if estrogen < 1.0 ∨ estrogen > 4.0 then 1
      else 0
  | .Female =>
      if estrogen < 0.5 ∨ estrogen > 12.0 then 2
      else if estrogen < 1.0 ∨ estrogen > 8.0 then 1
      else 0

/-- Testosterone block of `classify_status` (model.py lines 272-282). -/
def testosteroneEval (testosterone : ℚ) (gender : Gender) : ℕ :=
  match gender with
  | .Male =>
      if testosterone < 30.0 ∨ testosterone > 250.0 then 2
      else if testosterone < 50.0 ∨ testosterone > 200.0 then 1
      else 0
  | .Female =>
      if testosterone < 5.0 ∨ testosterone > 80.0 then 2
      else if testosterone < 10.0 ∨ testosterone > 55.0 then 1
      else 0

/-- The accumulated severity score of `classify_status` (model.py lines
241-282): `score = 0`, then `score += ...` once per hormone block. -/
def classifyScore (cortisol estrogen testosterone : ℚ)
    (gender : Gender) (time_of_day : TimeOfDay) : ℕ :=
  cortisolEval cortisol time_of_day + estrogenEval estrogen gender +
    testosteroneEval testosterone gender

/-- `classify_status` (model.py lines 235-292): severity score, then the
threshold ladder of lines 284-292. -/
def classify_status (cortisol estrogen testosterone : ℚ)
    (gender : Gender) (time_of_day : TimeOfDay) : String :=
  let score := classifyScore cortisol estrogen testosterone gender time_of_day
  if score ≥ 5 then "Severe Imbalance"
  else if score ≥ 3 then "Moderate Imbalance"
  else if score ≥ 1 then "Mild Imbalance"
  else "Normal"

/-- Python's `round` ties-to-even on the integer scale: round to the
nearest integer, and on an exact half round to the even neighbour.
(Python rounds the binary double; on the exact decimal values used at
our concrete inputs the two agree, and every bound proved below uses
only that the result is within 1/2 of the argument, which holds for
either tie rule.) -/
def bankersRound (q : ℚ) : ℤ :=
  if q - ⌊q⌋ = 1 / 2 then (if ⌊q⌋ % 2 = 0 then ⌊q⌋ else ⌊q⌋ + 1)
  else round q

/-- Python's two-argument `round(x, ndigits)`. -/
def pyRound (q : ℚ) (ndigits : ℕ) : ℚ :=
  (bankersRound (q * 10 ^ ndigits) : ℚ) / 10 ^ ndigits

/-- One emitted row of `generate_realistic_dataset` (model.py lines
134-144).  `sample_date` is kept as a day number: the source stores
`(datetime.now() - timedelta(days=random.randint(0, 730)))` formatted as
`YYYY-MM-DD`, which determines and is determined by the day count. -/
structure Sample where
  age : ℤ
  gender : Gender
  cortisol : ℚ
  estrogen : ℚ
  testosterone : ℚ
  time_of_day : TimeOfDay
  sample_date : ℤ
  health_condition : String
  status : String
  deriving DecidableEq

/-- Loop body of `generate_realistic_dataset` (model.py lines 112-144)
for one sample, with every random draw passed explicitly: `cortisol`,
`estrogen`, `testosterone` are the pre-noise outputs of the
`generate_*` helpers, `noise_c/e/t` the three `np.random.normal(0, v*σ)`
draws (a Gaussian has full support, so any rational is a possible
draw), `today` the day number of `datetime.now()` at the moment of the
call, and `date_offset` the `random.randint(0, 730)` draw.  The source
computes `status` on line 124, BEFORE the noise is added on lines
130-132 and before the values are floored at 0.1 and rounded to two
decimals on lines 137-139. -/
def mkSample (age : ℤ) (gender : Gender) (time_of_day : TimeOfDay)
    (condition : String) (cortisol estrogen testosterone : ℚ)
    (noise_c noise_e noise_t : ℚ) (today date_offset : ℤ) : Sample :=
  let status := classify_status cortisol estrogen testosterone gender time_of_day
  let sample_date := today - date_offset
  let cortisol := cortisol + noise_c
  let estrogen := estrogen + noise_e
  let testosterone := testosterone + noise_t
  { age := age
    gender := gender
    cortisol := pyRound (max 0.1 cortisol) 2
    estrogen := pyRound (max 0.1 estrogen) 2
    testosterone := pyRound (max 0.1 testosterone) 2
    time_of_day := time_of_day
    sample_date := sample_date
    health_condition := condition
    status := status }

/-- The common shape of each hormone block of `classify_status`: 2
outside the wide band `[lo2, hi2]`, 1 outside the tight band
`[lo1, hi1]`, else 0. -/
def bandEval (x lo2 hi2 lo1 hi1 : ℚ) : ℕ :=
  if x < lo2 ∨ x > hi2 then 2
  else if x < lo1 ∨ x > hi1 then 1
  else 0

/-- The score-0 (normal) cortisol band of `classify_status`, keyed by
time of day. -/
def cortisolNormalBand : TimeOfDay → ℚ × ℚ
  | .Morning => (4.0, 10.0)
  | .Afternoon => (1.0, 4.0)
  | .Evening => (0.3, 2.0)

/-- The score-0 (normal) estrogen band of `classify_status`, keyed by
gender. -/
def estrogenNormalBand : Gender → ℚ × ℚ
  | .Male => (1.0, 4.0)
  | .Female => (1.0, 8.0)

/-- The score-0 (normal) testosterone band of `classify_status`, keyed
by gender. -/
def testosteroneNormalBand : Gender → ℚ × ℚ
  | .Male => (50.0, 200.0)
  | .Female => (10.0, 55.0)

/-- `movedFurtherOutside x y band` says `x` lies strictly outside the
normal band and `y` is strictly further outside on the same side. -/
def movedFurtherOutside (x y : ℚ) (band : ℚ × ℚ) : Prop :=
  (x < band.1 ∧ y < x) ∨ (band.2 < x ∧ x < y)

instance (x y : ℚ) (band : ℚ × ℚ) :
    Decidable (movedFurtherOutside x y band) :=
  inferInstanceAs (Decidable ((x < band.1 ∧ y < x) ∨ (band.2 < x ∧ x < y)))

/-- One entry of the per-hormone analysis dict (model.py lines
484-535): a status string, the raw level, and an optional note. -/
structure HormoneEntry where
  status : String
  level : ℚ
  note : Option String := none
  deriving DecidableEq

/-- The three-hormone analysis dict built by `analyze_hormones`. -/
structure HormoneAnalysis where
  cortisol : HormoneEntry
  estrogen : HormoneEntry
  testosterone : HormoneEntry
  deriving DecidableEq

/-- `analyze_hormones` (model.py lines 484-535).  The f-string note
`f'Elevated for {time_of_day.lower()}'` is spelled out per branch. -/
def analyze_hormones (cortisol estrogen testosterone : ℚ)
    (gender : Gender) (time_of_day : TimeOfDay) : HormoneAnalysis :=
  let cortisolEntry : HormoneEntry :=
    if time_of_day = TimeOfDay.Morning then
      if cortisol < 3.0 then
        { status := "Low", level := cortisol,
          note := some "Below morning reference" }
      else if cortisol > 10.0 then
        { status := "High", level := cortisol,
          note := some "Elevated stress response" }
      else
        { status := "Normal", level := cortisol,
          note := some "Within morning range" }
    else
      let threshold_high : ℚ :=
        if time_of_day = TimeOfDay.Afternoon then 4.0 else 2.0
      if cortisol > threshold_high then
        { status := "High", level := cortisol,
          note := some (if time_of_day = TimeOfDay.Afternoon then
            "Elevated for afternoon" else "Elevated for evening") }
      else
        { status := "Normal", level := cortisol,
          note := some "Appropriate diurnal level" }
  let estrogenEntry : HormoneEntry :=
    match gender with
    | .Male =>
        if estrogen < 1.0 then { status := "Low", level := estrogen }
        else if estrogen > 4.0 then { status := "High", level := estrogen }
        else { status := "Normal", level := estrogen }
    | .Female =>
        if estrogen < 1.0 then { status := "Low", level := estrogen }
        else if estrogen > 8.0 then { status := "High", level := estrogen }
        else { status := "Normal", level := estrogen }
  let testosteroneEntry : HormoneEntry :=
    match gender with
    | .Male =>
        if testosterone < 50.0 then
          { status := "Low", level := testosterone,
            note := some "Below male reference" }
        else if testosterone > 200.0 then
          { status := "High", level := testosterone }
        else { status := "Normal", level := testosterone }
    | .Female =>
        if testosterone < 10.0 then
          { status := "Low", level := testosterone }
        else if testosterone > 55.0 then
          { status := "High", level := testosterone,
            note := some "Elevated for female" }
        else { status := "Normal", level := testosterone }
  { cortisol := cortisolEntry, estrogen := estrogenEntry,
    testosterone := testosteroneEntry }

/-- The persisted `StandardScaler`: per-feature mean and scale.  Its
`transform` subtracts the mean and divides by the scale, and raises a
`ValueError` when the feature count disagrees with what it was fitted
on. -/
structure Scaler where
  mean : List ℚ
  scale : List ℚ
  deriving DecidableEq

/-- `scaler.transform` on one row: `(x - mean) / scale` per feature, or
a `ValueError` on a feature-count mismatch. -/
def scalerTransform (s : Scaler) (features : List ℚ) :
    Except String (List ℚ) :=
  if features.length = s.mean.length ∧ features.length = s.scale.length then
    Except.ok (List.zipWith (fun x ms => (x - ms.1) / ms.2) features
      (s.mean.zip s.scale))
  else
    Except.error "ValueError: X has a different number of features than StandardScaler was fitted with"

/-- Lines 455-456 of model.py: `if scaler is not None: features =
scaler.transform(features)` — an absent scaler is silently skipped. -/
def applyScaler (scaler : Option Scaler) (features : List ℚ) :
    Except String (List ℚ) :=
  match scaler with
  | none => Except.ok features
  | some s => scalerTransform s features

/-- The fitted scikit-learn classifier, abstracted as its label list
(`classes_labels_`), `predict` (index of the arg-max class) and
`predict_proba` (per-class probability vector) on one feature row. -/
structure Classifier where
  classes_labels_ : List String
  predictIdx : List ℚ → ℕ
  predictProba : List ℚ → List ℚ

/-- Python's `max` on a list (the source only applies it to the
nonempty probability vector; the `[]` case is unreachable there). -/
def pyMax : List ℚ → ℚ
  | [] => 0
  | x :: xs => xs.foldl max x

/-- `df['gender_encoded'] = (df['gender'] == 'Male').astype(int)`
(model.py line 316), per row. -/
def train_gender_encoded (gender : Gender) : ℚ :=
  if gender = Gender.Male then 1 else 0

/-- `time_mapping = {'Morning': 0, 'Afternoon': 1, 'Evening': 2}` and
`df['time_of_day'].map(time_mapping)` (model.py lines 320-321), per
row. -/
def train_time_encoded : TimeOfDay → ℚ
  | .Morning => 0
  | .Afternoon => 1
  | .Evening => 2

/-- The per-row feature vector assembled by `train_model`: columns
`['age', 'cortisol', 'estrogen', 'testosterone', 'gender_encoded',
'time_encoded']` in that order (model.py lines 312-324). -/
def trainFeatureRow (age cortisol estrogen testosterone : ℚ)
    (gender : Gender) (time_of_day : TimeOfDay) : List ℚ :=
  [age, cortisol, estrogen, testosterone, train_gender_encoded gender,
    train_time_encoded time_of_day]

/-- `gender_encoded = 1 if gender == 'Male' else 0` (model.py line
449). -/
def predict_gender_encoded (gender : Gender) : ℚ :=
  if gender = Gender.Male then 1 else 0

/-- `time_mapping.get(time_of_day, 0)` (model.py lines 450-451); on the
three recognized values the default branch is never taken. -/
def predict_time_encoded : TimeOfDay → ℚ
  | .Morning => 0
  | .Afternoon => 1
  | .Evening => 2

/-- The feature row built by `predict_status` (model.py line 453). -/
def predictFeatureRow (age cortisol estrogen testosterone : ℚ)
    (gender : Gender) (time_of_day : TimeOfDay) : List ℚ :=
  [age, cortisol, estrogen, testosterone, predict_gender_encoded gender,
    predict_time_encoded time_of_day]

/-- The structured result of `predict_status` (model.py lines 472-481).
`probabilities` is the dict `{label: round(prob * 100, 1)}` as an
association list in `classes_labels_` order; the static `insights`
lookup (a fixed table keyed by `status`) is not referenced by any claim
and is omitted. -/
structure PredictionResult where
  status : String
  confidence : ℚ
  probabilities : List (String × ℚ)
  hormone_analysis : HormoneAnalysis
  deriving DecidableEq

/-- `predict_status` (model.py lines 430-481) for a pre-loaded model:
build the feature row, apply the scaler when present, read the
predicted index and the probability vector off the classifier, and
package the result.  A scikit-learn `ValueError` (shape mismatch)
surfaces as `Except.error`. -/
def predict_status (model : Classifier) (scaler : Option Scaler)
    (age cortisol estrogen testosterone : ℚ) (gender : Gender)
    (time_of_day : TimeOfDay) : Except String PredictionResult :=
  match applyScaler scaler
      (predictFeatureRow age cortisol estrogen testosterone gender
        time_of_day) with
  | Except.error msg => Except.error msg
  | Except.ok features =>
      let prediction_idx := model.predictIdx features
      let probabilities := model.predictProba features
      let confidence := pyMax probabilities * 100
      let prediction := model.classes_labels_.getD prediction_idx ""
      Except.ok
        { status := prediction
          confidence := pyRound confidence 1
          probabilities := (model.classes_labels_.zip probabilities).map
            (fun lp => (lp.1, pyRound (lp.2 * 100) 1))
          hormone_analysis := analyze_hormones cortisol estrogen
            testosterone gender time_of_day }

/-- `load_model` (model.py lines 415-427).  File-system state is passed
as the two existence flags plus the deserialized artifacts, and
`trainOnDataset n seed` abstracts `train_model(generate_realistic_dataset(n, seed))`
(the scikit-learn fit itself is not embeddable); `generate_realistic_dataset(2000)`
uses the default seed 42 of line 73.  When the model file is missing
the source generates 2000 samples, trains, and returns the fresh model
and scaler; otherwise it loads the model, and the scaler only if its
file exists, returning `None` for it otherwise. -/
def load_model (modelFileExists scalerFileExists : Bool)
    (diskModel : Classifier) (diskScaler : Scaler)
    (trainOnDataset : ℕ → ℕ → Classifier × Scaler) :
    Classifier × Option Scaler :=
  if modelFileExists = false then
    ((trainOnDataset 2000 42).1, some (trainOnDataset 2000 42).2)
  else
    (diskModel, if scalerFileExists then some diskScaler else none)

/-- A concrete stand-in classifier used only to instantiate theorems at
a concrete input. -/
def constClassifier : Classifier where
  classes_labels_ := STATUS_LEVELS
  predictIdx := fun _ => 0
  predictProba := fun _ => [1, 0, 0, 0]

/-- C2: `classify_status` accumulates a per-hormone score of 0, 1 or 2
from the context-keyed bands, maps the total through the thresholds
score ≥ 5 ↦ Severe, ≥ 3 ↦ Moderate, ≥ 1 ↦ Mild, 0 ↦ Normal, and always
returns one of the four canonical labels. -/
theorem c2_score_bands_and_thresholds (cortisol estrogen testosterone : ℚ)
    (gender : Gender) (time_of_day : TimeOfDay) :
    cortisolEval cortisol time_of_day ≤ 2 ∧
    estrogenEval estrogen gender ≤ 2 ∧
    testosteroneEval testosterone gender ≤ 2 ∧
    classify_status cortisol estrogen testosterone gender time_of_day =
      (if 5 ≤ classifyScore cortisol estrogen testosterone gender time_of_day
        then "Severe Imbalance"
        else if 3 ≤ classifyScore cortisol estrogen testosterone gender time_of_day
        then "Moderate Imbalance"
        else if 1 ≤ classifyScore cortisol estrogen testosterone gender time_of_day
        then "Mild Imbalance"
        else "Normal") ∧
    classify_status cortisol estrogen testosterone gender time_of_day ∈
      STATUS_LEVELS := by
  refine ⟨?_, ?_, ?_, rfl, ?_⟩
  · cases time_of_day <;> simp only [cortisolEval] <;> split_ifs <;> omega
  · cases gender <;> simp only [estrogenEval] <;> split_ifs <;> omega
  · cases gender <;> simp only [testosteroneEval] <;> split_ifs <;> omega
  · simp only [classify_status, STATUS_LEVELS]
    split_ifs <;> simp

/-- C3 counterexample: at cortisol 12.0, estrogen 2.0, testosterone 40.0,
Male, Morning, the severity score is 2 (cortisol 12.0 is not strictly
greater than 12.0, so the cortisol block contributes only 1), hence the
score is not at least 3 and the label is neither Moderate nor Severe. -/
theorem c3_counterexample :
    classifyScore 12.0 2.0 40.0 Gender.Male TimeOfDay.Morning = 2 ∧
    ¬ 3 ≤ classifyScore 12.0 2.0 40.0 Gender.Male TimeOfDay.Morning ∧
    classify_status 12.0 2.0 40.0 Gender.Male TimeOfDay.Morning ≠
      "Moderate Imbalance" ∧
    classify_status 12.0 2.0 40.0 Gender.Male TimeOfDay.Morning ≠
      "Severe Imbalance" := by
  decide

/-- C3 amended: at cortisol 12.0, estrogen 2.0, testosterone 40.0, Male,
Morning, the severity score is exactly 2 and `classify_status` returns
`Mild Imbalance`; in particular the label is not `Normal`. -/
theorem c3_amended_mild_not_normal :
    classifyScore 12.0 2.0 40.0 Gender.Male TimeOfDay.Morning = 2 ∧
    classify_status 12.0 2.0 40.0 Gender.Male TimeOfDay.Morning =
      "Mild Imbalance" ∧
    classify_status 12.0 2.0 40.0 Gender.Male TimeOfDay.Morning ≠
      "Normal" := by
  decide

/-- C1: the generator labels each sample from the PRE-noise hormone
values, so the stored label can disagree with `classify_status` applied
to the stored post-noise features.  Failing input: Male, Morning,
pre-noise cortisol 10.5 (score 1, `Mild Imbalance`), cortisol noise
draw -1.0, no other noise: the stored cortisol is 9.5, and
`classify_status` on the stored features returns `Normal`. -/
theorem c1_label_computed_from_prenoise_values :
    (mkSample 35 Gender.Male TimeOfDay.Morning "Healthy"
        10.5 2.0 100.0 (-1.0) 0 0 20000 100).status = "Mild Imbalance" ∧
    (mkSample 35 Gender.Male TimeOfDay.Morning "Healthy"
        10.5 2.0 100.0 (-1.0) 0 0 20000 100).cortisol = 9.5 ∧
    classify_status
      (mkSample 35 Gender.Male TimeOfDay.Morning "Healthy"
          10.5 2.0 100.0 (-1.0) 0 0 20000 100).cortisol
      (mkSample 35 Gender.Male TimeOfDay.Morning "Healthy"
          10.5 2.0 100.0 (-1.0) 0 0 20000 100).estrogen
      (mkSample 35 Gender.Male TimeOfDay.Morning "Healthy"
          10.5 2.0 100.0 (-1.0) 0 0 20000 100).testosterone
      Gender.Male TimeOfDay.Morning = "Normal" ∧
    (mkSample 35 Gender.Male TimeOfDay.Morning "Healthy"
        10.5 2.0 100.0 (-1.0) 0 0 20000 100).status ≠
    classify_status
      (mkSample 35 Gender.Male TimeOfDay.Morning "Healthy"
          10.5 2.0 100.0 (-1.0) 0 0 20000 100).cortisol
      (mkSample 35 Gender.Male TimeOfDay.Morning "Healthy"
          10.5 2.0 100.0 (-1.0) 0 0 20000 100).estrogen
      (mkSample 35 Gender.Male TimeOfDay.Morning "Healthy"
          10.5 2.0 100.0 (-1.0) 0 0 20000 100).testosterone
      Gender.Male TimeOfDay.Morning := by
  decide

/-- C4: the generator reads the wall clock: `sample_date` is
`datetime.now()` minus a seeded offset, so two calls with identical n
and seed made on different days store different `sample_date` columns
even though every seeded draw (and hence every other field) is
identical.  Here the same draws are replayed with `datetime.now()` one
day apart. -/
theorem c4_sample_date_reads_wall_clock :
    (mkSample 35 Gender.Male TimeOfDay.Morning "Healthy"
        5.0 2.0 100.0 0 0 0 20000 100).sample_date ≠
      (mkSample 35 Gender.Male TimeOfDay.Morning "Healthy"
          5.0 2.0 100.0 0 0 0 20001 100).sample_date ∧
    (mkSample 35 Gender.Male TimeOfDay.Morning "Healthy"
        5.0 2.0 100.0 0 0 0 20000 100).status =
      (mkSample 35 Gender.Male TimeOfDay.Morning "Healthy"
          5.0 2.0 100.0 0 0 0 20001 100).status ∧
    (mkSample 35 Gender.Male TimeOfDay.Morning "Healthy"
        5.0 2.0 100.0 0 0 0 20000 100).cortisol =
      (mkSample 35 Gender.Male TimeOfDay.Morning "Healthy"
          5.0 2.0 100.0 0 0 0 20001 100).cortisol ∧
    (mkSample 35 Gender.Male TimeOfDay.Morning "Healthy"
        5.0 2.0 100.0 0 0 0 20000 100).estrogen =
      (mkSample 35 Gender.Male TimeOfDay.Morning "Healthy"
          5.0 2.0 100.0 0 0 0 20001 100).estrogen ∧
    (mkSample 35 Gender.Male TimeOfDay.Morning "Healthy"
        5.0 2.0 100.0 0 0 0 20000 100).testosterone =
      (mkSample 35 Gender.Male TimeOfDay.Morning "Healthy"
          5.0 2.0 100.0 0 0 0 20001 100).testosterone := by
  decide

/-- With nested bands, moving strictly further outside the tight band
on either side never decreases `bandEval`. -/
lemma bandEval_mono {lo2 hi2 lo1 hi1 : ℚ} (hlo : lo2 ≤ lo1)
    (hband : lo1 ≤ hi1) (hhi : hi1 ≤ hi2) {x y : ℚ}
    (h : (x < lo1 ∧ y < x) ∨ (hi1 < x ∧ x < y)) :
    bandEval x lo2 hi2 lo1 hi1 ≤ bandEval y lo2 hi2 lo1 hi1 := by
  rcases h with ⟨h1, h2⟩ | ⟨h1, h2⟩ <;>
    unfold bandEval <;>
    split_ifs <;>
    try omega
  all_goals
    exfalso
    push_neg at *
    casesm* _ ∧ _
    casesm* _ ∨ _ <;> linarith

/-- C5: holding gender, time of day and the other two hormones fixed,
moving any single hormone strictly further outside its normal band (in
either direction) never decreases the severity score accumulated by
`classify_status`. -/
theorem c5_score_monotone_in_deviation :
    (∀ (gender : Gender) (time_of_day : TimeOfDay) (c c' e t : ℚ),
      movedFurtherOutside c c' (cortisolNormalBand time_of_day) →
        classifyScore c e t gender time_of_day ≤
          classifyScore c' e t gender time_of_day) ∧
    (∀ (gender : Gender) (time_of_day : TimeOfDay) (c e e' t : ℚ),
      movedFurtherOutside e e' (estrogenNormalBand gender) →
        classifyScore c e t gender time_of_day ≤
          classifyScore c e' t gender time_of_day) ∧
    (∀ (gender : Gender) (time_of_day : TimeOfDay) (c e t t' : ℚ),
      movedFurtherOutside t t' (testosteroneNormalBand gender) →
        classifyScore c e t gender time_of_day ≤
          classifyScore c e t' gender time_of_day) := by
  refine ⟨?_, ?_, ?_⟩
  · intro gender time_of_day c c' e t h
    simp only [classifyScore]
    refine Nat.add_le_add_right (Nat.add_le_add_right ?_ _) _
    cases time_of_day <;>
      exact bandEval_mono (by norm_num) (by norm_num) (by norm_num) h
  · intro gender time_of_day c e e' t h
    simp only [classifyScore]
    refine Nat.add_le_add_right (Nat.add_le_add_left ?_ _) _
    cases gender <;>
      exact bandEval_mono (by norm_num) (by norm_num) (by norm_num) h
  · intro gender time_of_day c e t t' h
    simp only [classifyScore]
    refine Nat.add_le_add_left ?_ _
    cases gender <;>
      exact bandEval_mono (by norm_num) (by norm_num) (by norm_num) h

/-- C5 witness: cortisol 3.0 is below the Morning normal band and 2.0
is strictly further below; the severity score does not decrease. -/
theorem c5_witness :
    movedFurtherOutside 3.0 2.0 (cortisolNormalBand TimeOfDay.Morning) ∧
    classifyScore 3.0 5.0 100.0 Gender.Male TimeOfDay.Morning ≤
      classifyScore 2.0 5.0 100.0 Gender.Male TimeOfDay.Morning :=
  ⟨by decide,
    c5_score_monotone_in_deviation.1 Gender.Male TimeOfDay.Morning
      3.0 2.0 5.0 100.0 (by decide)⟩

/-- C6 counterexample: both non-length disagreements of the claim are
silently accepted.  (a) With the scaler component absent (`None`, as
`load_model` returns when only the scaler file is missing),
`predict_status` does not fail: it skips scaling and produces a label
anyway.  (b) With a scaler whose six per-feature statistics are in the
wrong order — here one fitted with the age and cortisol columns
swapped, mean (5, 30, 2, 100, 0, 0) and scale (2, 10, 1, 50, 1, 1)
instead of the correctly ordered mean (30, 5, 2, 100, 0, 0) and scale
(10, 2, 1, 50, 1, 1) — the call also succeeds with a label, even
though the scaled features it feeds the classifier differ from those
the correctly ordered scaler yields on the same query row
(age 35, cortisol 5, estrogen 2, testosterone 100, Male, Morning). -/
theorem c6_counterexample_silent_scaler_paths :
    predict_status constClassifier none 35 5.0 2.0 100.0 Gender.Male
      TimeOfDay.Morning =
    Except.ok
      { status := "Normal"
        confidence := 100
        probabilities := [("Normal", 100), ("Mild Imbalance", 0),
          ("Moderate Imbalance", 0), ("Severe Imbalance", 0)]
        hormone_analysis := analyze_hormones 5.0 2.0 100.0 Gender.Male
          TimeOfDay.Morning } ∧
    (∃ r, predict_status constClassifier
        (some { mean := [5.0, 30.0, 2.0, 100.0, 0, 0],
                scale := [2.0, 10.0, 1.0, 50.0, 1.0, 1.0] })
        35 5.0 2.0 100.0 Gender.Male TimeOfDay.Morning =
      Except.ok r) ∧
    scalerTransform
        { mean := [5.0, 30.0, 2.0, 100.0, 0, 0],
          scale := [2.0, 10.0, 1.0, 50.0, 1.0, 1.0] }
        (predictFeatureRow 35 5.0 2.0 100.0 Gender.Male
          TimeOfDay.Morning) =
      Except.ok [15, -5/2, 0, 0, 1, 0] ∧
    scalerTransform
        { mean := [30.0, 5.0, 2.0, 100.0, 0, 0],
          scale := [10.0, 2.0, 1.0, 50.0, 1.0, 1.0] }
        (predictFeatureRow 35 5.0 2.0 100.0 Gender.Male
          TimeOfDay.Morning) =
      Except.ok [1/2, 0, 0, 0, 1, 0] ∧
    ([15, -5/2, 0, 0, 1, 0] : List ℚ) ≠ [1/2, 0, 0, 0, 1, 0] :=
  ⟨rfl, ⟨_, rfl⟩, rfl, rfl, by decide⟩

/-- C6 amended: only a length disagreement is detected.  When a scaler
is present but disagrees in length with the six-entry feature vector
the predictor builds, the prediction call fails with a distinguishable
error; but when the scaler is absent, `predict_status` silently skips
the scaling step and produces a label anyway, and any present scaler
of the right length — in particular one whose per-feature statistics
are in the wrong order — is silently applied and a label produced,
with no order check of any kind. -/
theorem c6_amended_only_length_mismatch_fatal :
    (∀ (model : Classifier) (s : Scaler)
        (age cortisol estrogen testosterone : ℚ) (gender : Gender)
        (time_of_day : TimeOfDay),
      s.mean.length ≠ 6 ∨ s.scale.length ≠ 6 →
      ∃ msg, predict_status model (some s) age cortisol estrogen
        testosterone gender time_of_day = Except.error msg) ∧
    (∀ (model : Classifier) (age cortisol estrogen testosterone : ℚ)
        (gender : Gender) (time_of_day : TimeOfDay),
      ∃ r, predict_status model none age cortisol estrogen testosterone
        gender time_of_day = Except.ok r) ∧
    (∀ (model : Classifier) (s : Scaler)
        (age cortisol estrogen testosterone : ℚ) (gender : Gender)
        (time_of_day : TimeOfDay),
      s.mean.length = 6 → s.scale.length = 6 →
      ∃ r, predict_status model (some s) age cortisol estrogen
        testosterone gender time_of_day = Except.ok r) := by
  refine ⟨?_, ?_, ?_⟩
  · intro model s age cortisol estrogen testosterone gender time_of_day h
    have hc : ¬((predictFeatureRow age cortisol estrogen testosterone
          gender time_of_day).length = s.mean.length ∧
        (predictFeatureRow age cortisol estrogen testosterone gender
          time_of_day).length = s.scale.length) := by
      have hlen : (predictFeatureRow age cortisol estrogen testosterone
          gender time_of_day).length = 6 := rfl
      rw [hlen]
      rintro ⟨h1, h2⟩
      rcases h with h | h
      · exact h h1.symm
      · exact h h2.symm
    refine ⟨"ValueError: X has a different number of features than StandardScaler was fitted with", ?_⟩
    simp only [predict_status, applyScaler, scalerTransform]
    rw [if_neg hc]
  · intro model age cortisol estrogen testosterone gender time_of_day
    exact ⟨_, rfl⟩
  · intro model s age cortisol estrogen testosterone gender time_of_day
      hm hs
    have hcond : (predictFeatureRow age cortisol estrogen testosterone
          gender time_of_day).length = s.mean.length ∧
        (predictFeatureRow age cortisol estrogen testosterone gender
          time_of_day).length = s.scale.length := by
      constructor
      · rw [hm]
        rfl
      · rw [hs]
        rfl
    have hok : applyScaler (some s)
        (predictFeatureRow age cortisol estrogen testosterone gender
          time_of_day) =
        Except.ok (List.zipWith (fun x ms => (x - ms.1) / ms.2)
          (predictFeatureRow age cortisol estrogen testosterone gender
            time_of_day)
          (s.mean.zip s.scale)) := by
      simp only [applyScaler, scalerTransform]
      rw [if_pos hcond]
    simp only [predict_status]
    rw [hok]
    exact ⟨_, rfl⟩

/-- C6 amended witness: a one-feature scaler makes the call error; an
absent scaler lets it return a result; and the order-swapped
six-feature scaler of the counterexample is silently accepted. -/
theorem c6_amended_witness :
    (∃ msg, predict_status constClassifier
        (some { mean := [0], scale := [1] }) 35 5.0 2.0 100.0
        Gender.Male TimeOfDay.Morning = Except.error msg) ∧
    (∃ r, predict_status constClassifier none 35 5.0 2.0 100.0
        Gender.Male TimeOfDay.Morning = Except.ok r) ∧
    (∃ r, predict_status constClassifier
        (some { mean := [5.0, 30.0, 2.0, 100.0, 0, 0],
                scale := [2.0, 10.0, 1.0, 50.0, 1.0, 1.0] })
        35 5.0 2.0 100.0 Gender.Male TimeOfDay.Morning =
      Except.ok r) :=
  ⟨c6_amended_only_length_mismatch_fatal.1 constClassifier
      { mean := [0], scale := [1] } 35 5.0 2.0 100.0 Gender.Male
      TimeOfDay.Morning (Or.inl (by decide)),
    c6_amended_only_length_mismatch_fatal.2.1 constClassifier 35 5.0
      2.0 100.0 Gender.Male TimeOfDay.Morning,
    c6_amended_only_length_mismatch_fatal.2.2 constClassifier
      { mean := [5.0, 30.0, 2.0, 100.0, 0, 0],
        scale := [2.0, 10.0, 1.0, 50.0, 1.0, 1.0] }
      35 5.0 2.0 100.0 Gender.Male TimeOfDay.Morning (by decide)
      (by decide)⟩

/-- C7: with no model artifact on disk, `load_model` does not raise: it
trains on a freshly generated synthetic dataset of exactly 2000 samples
with the fixed default seed 42 and returns that model and scaler; a
prediction made with the returned pair succeeds (the fitted scaler has
the six features of the training matrix). -/
theorem c7_cold_start_trains_and_serves (diskModel : Classifier)
    (diskScaler : Scaler) (scalerFileExists : Bool)
    (trainOnDataset : ℕ → ℕ → Classifier × Scaler)
    (hmean : (trainOnDataset 2000 42).2.mean.length = 6)
    (hscale : (trainOnDataset 2000 42).2.scale.length = 6)
    (age cortisol estrogen testosterone : ℚ) (gender : Gender)
    (time_of_day : TimeOfDay) :
    load_model false scalerFileExists diskModel diskScaler trainOnDataset =
      ((trainOnDataset 2000 42).1, some (trainOnDataset 2000 42).2) ∧
    ∃ r, predict_status
        (load_model false scalerFileExists diskModel diskScaler
          trainOnDataset).1
        (load_model false scalerFileExists diskModel diskScaler
          trainOnDataset).2
        age cortisol estrogen testosterone gender time_of_day =
      Except.ok r := by
  have hcond : (predictFeatureRow age cortisol estrogen testosterone
        gender time_of_day).length = (trainOnDataset 2000 42).2.mean.length ∧
      (predictFeatureRow age cortisol estrogen testosterone gender
        time_of_day).length = (trainOnDataset 2000 42).2.scale.length := by
    constructor
    · rw [hmean]
      rfl
    · rw [hscale]
      rfl
  constructor
  · rfl
  · have hok : applyScaler (some (trainOnDataset 2000 42).2)
        (predictFeatureRow age cortisol estrogen testosterone gender
          time_of_day) =
        Except.ok (List.zipWith (fun x ms => (x - ms.1) / ms.2)
          (predictFeatureRow age cortisol estrogen testosterone gender
            time_of_day)
          ((trainOnDataset 2000 42).2.mean.zip
            (trainOnDataset 2000 42).2.scale)) := by
      simp only [applyScaler, scalerTransform]
      rw [if_pos hcond]
    show ∃ r, predict_status (trainOnDataset 2000 42).1
      (some (trainOnDataset 2000 42).2) age cortisol estrogen
      testosterone gender time_of_day = Except.ok r
    simp only [predict_status]
    rw [hok]
    exact ⟨_, rfl⟩

/-- C7 witness: a concrete training function with a six-feature scaler;
the cold-start path returns it and a prediction goes through. -/
theorem c7_witness :
    load_model false false constClassifier
        { mean := [0], scale := [1] }
        (fun _ _ => (constClassifier,
          { mean := [0, 0, 0, 0, 0, 0], scale := [1, 1, 1, 1, 1, 1] })) =
      (constClassifier,
        some { mean := [0, 0, 0, 0, 0, 0], scale := [1, 1, 1, 1, 1, 1] }) ∧
    ∃ r, predict_status constClassifier
        (some { mean := [0, 0, 0, 0, 0, 0], scale := [1, 1, 1, 1, 1, 1] })
        35 5.0 2.0 100.0 Gender.Male TimeOfDay.Morning = Except.ok r :=
  c7_cold_start_trains_and_serves constClassifier
    { mean := [0], scale := [1] } false
    (fun _ _ => (constClassifier,
      { mean := [0, 0, 0, 0, 0, 0], scale := [1, 1, 1, 1, 1, 1] }))
    (by decide) (by decide) 35 5.0 2.0 100.0 Gender.Male
    TimeOfDay.Morning

/-- C8: the feature encoding used at inference equals the one used at
training: the same six-entry order [age, cortisol, estrogen,
testosterone, gender_encoded, time_encoded], gender encoded as 1
exactly for Male and 0 otherwise, and Morning/Afternoon/Evening mapped
to 0/1/2 on both sides. -/
theorem c8_feature_encoding_consistent
    (age cortisol estrogen testosterone : ℚ) (gender : Gender)
    (time_of_day : TimeOfDay) :
    trainFeatureRow age cortisol estrogen testosterone gender
        time_of_day =
      predictFeatureRow age cortisol estrogen testosterone gender
        time_of_day ∧
    (trainFeatureRow age cortisol estrogen testosterone gender
        time_of_day).length = 6 ∧
    (predictFeatureRow age cortisol estrogen testosterone gender
        time_of_day).length = 6 ∧
    (train_gender_encoded gender = 1 ↔ gender = Gender.Male) ∧
    (predict_gender_encoded gender = 1 ↔ gender = Gender.Male) ∧
    train_time_encoded TimeOfDay.Morning = 0 ∧
    train_time_encoded TimeOfDay.Afternoon = 1 ∧
    train_time_encoded TimeOfDay.Evening = 2 ∧
    predict_time_encoded TimeOfDay.Morning = 0 ∧
    predict_time_encoded TimeOfDay.Afternoon = 1 ∧
    predict_time_encoded TimeOfDay.Evening = 2 := by
  refine ⟨rfl, rfl, rfl, ?_, ?_, rfl, rfl, rfl, rfl, rfl, rfl⟩ <;>
    (cases gender <;> decide)

/-- C10: outside the Morning branch, the cortisol entry of
`analyze_hormones` is only ever `Normal` or `High`: arbitrarily low
cortisol in the Afternoon or Evening is reported `Normal`, even below
the Reference Model's lower band bound, and a `Low` cortisol status can
only come from the Morning branch. -/
theorem c10_cortisol_low_only_in_morning :
    (∀ (cortisol estrogen testosterone : ℚ) (gender : Gender)
        (time_of_day : TimeOfDay),
      time_of_day ≠ TimeOfDay.Morning →
      ((analyze_hormones cortisol estrogen testosterone gender
          time_of_day).cortisol.status = "Normal" ∨
        (analyze_hormones cortisol estrogen testosterone gender
          time_of_day).cortisol.status = "High") ∧
      (cortisol < (cortisolNormalBand time_of_day).1 →
        (analyze_hormones cortisol estrogen testosterone gender
          time_of_day).cortisol.status = "Normal")) ∧
    (∀ (cortisol estrogen testosterone : ℚ) (gender : Gender)
        (time_of_day : TimeOfDay),
      (analyze_hormones cortisol estrogen testosterone gender
          time_of_day).cortisol.status = "Low" →
      time_of_day = TimeOfDay.Morning) := by
  constructor
  · intro cortisol estrogen testosterone gender time_of_day hne
    cases time_of_day with
    | Morning => exact absurd rfl hne
    | Afternoon =>
        constructor
        · by_cases hgt : cortisol > (4.0 : ℚ)
          · right
            simp [analyze_hormones, hgt]
          · left
            simp [analyze_hormones, hgt]
        · intro hlt
          simp only [cortisolNormalBand] at hlt
          have hngt : ¬ cortisol > (4.0 : ℚ) := by
            push_neg
            linarith
          simp [analyze_hormones, hngt]
    | Evening =>
        constructor
        · by_cases hgt : cortisol > (2.0 : ℚ)
          · right
            simp [analyze_hormones, hgt]
          · left
            simp [analyze_hormones, hgt]
        · intro hlt
          simp only [cortisolNormalBand] at hlt
          have hngt : ¬ cortisol > (2.0 : ℚ) := by
            push_neg
            linarith
          simp [analyze_hormones, hngt]
  · intro cortisol estrogen testosterone gender time_of_day h
    cases time_of_day with
    | Morning => rfl
    | Afternoon =>
        exfalso
        by_cases hgt : cortisol > (4.0 : ℚ) <;>
          simp [analyze_hormones, hgt] at h
    | Evening =>
        exfalso
        by_cases hgt : cortisol > (2.0 : ℚ) <;>
          simp [analyze_hormones, hgt] at h

/-- C10 witness: cortisol 0.1 in the Afternoon — far below the 1.0
lower band bound — is reported `Normal`, not `Low`. -/
theorem c10_witness :
    ((analyze_hormones 0.1 5.0 100.0 Gender.Female
        TimeOfDay.Afternoon).cortisol.status = "Normal" ∨
      (analyze_hormones 0.1 5.0 100.0 Gender.Female
        TimeOfDay.Afternoon).cortisol.status = "High") ∧
    (0.1 < (cortisolNormalBand TimeOfDay.Afternoon).1 →
      (analyze_hormones 0.1 5.0 100.0 Gender.Female
        TimeOfDay.Afternoon).cortisol.status = "Normal") :=
  c10_cortisol_low_only_in_morning.1 0.1 5.0 100.0 Gender.Female
    TimeOfDay.Afternoon (by decide)

/-- The tie-to-even result never falls below the floor. -/
lemma floor_le_bankersRound (q : ℚ) : ⌊q⌋ ≤ bankersRound q := by
  unfold bankersRound
  split_ifs with h1 h2
  · exact le_refl _
  · omega
  · rw [round_eq]
    exact Int.floor_mono (by linarith)

/-- The tie-to-even result never exceeds the ceiling. -/
lemma bankersRound_le_ceil (q : ℚ) : bankersRound q ≤ ⌈q⌉ := by
  have hle := Int.le_ceil q
  unfold bankersRound
  split_ifs with h1 h2
  · have hlt : (⌊q⌋ : ℚ) < (⌈q⌉ : ℚ) := by linarith
    have : ⌊q⌋ < ⌈q⌉ := by exact_mod_cast hlt
    omega
  · have hlt : (⌊q⌋ : ℚ) < (⌈q⌉ : ℚ) := by linarith
    have : ⌊q⌋ < ⌈q⌉ := by exact_mod_cast hlt
    omega
  · rw [round_eq]
    have h : q + 1 / 2 ≤ (⌈q⌉ : ℚ) + 1 / 2 := by linarith
    calc ⌊q + 1 / 2⌋ ≤ ⌊(⌈q⌉ : ℚ) + 1 / 2⌋ := Int.floor_mono h
      _ = ⌊(1 : ℚ) / 2⌋ + ⌈q⌉ := by rw [add_comm, Int.floor_add_int]
      _ = ⌈q⌉ := by norm_num

/-- The tie-to-even result is within 1/2 of the argument. -/
lemma abs_bankersRound_sub (q : ℚ) : |(bankersRound q : ℚ) - q| ≤ 1 / 2 := by
  unfold bankersRound
  split_ifs with h1 h2
  · rw [abs_sub_comm, h1, abs_le]
    constructor <;> norm_num
  · rw [abs_le]
    constructor <;> push_cast <;> linarith
  · rw [abs_sub_comm]
    exact abs_sub_round q

/-- Rounding to one decimal moves a rational by at most 1/20. -/
lemma abs_pyRound_one_sub (q : ℚ) : |pyRound q 1 - q| ≤ 1 / 20 := by
  unfold pyRound
  have h := abs_bankersRound_sub (q * 10 ^ 1)
  have heq : (bankersRound (q * 10 ^ 1) : ℚ) / 10 ^ 1 - q =
      ((bankersRound (q * 10 ^ 1) : ℚ) - q * 10 ^ 1) / 10 ^ 1 := by
    ring
  rw [heq, abs_div]
  have habs : |((10 : ℚ) ^ 1)| = 10 := by norm_num
  rw [habs, div_le_iff₀ (by norm_num : (0 : ℚ) < 10)]
  linarith

/-- A probability in [0, 1], rescaled to a percentage and rounded to one
decimal, lands in [0, 100]. -/
lemma pyRound_pct_bounds (p : ℚ) (h0 : 0 ≤ p) (h1 : p ≤ 1) :
    0 ≤ pyRound (p * 100) 1 ∧ pyRound (p * 100) 1 ≤ 100 := by
  unfold pyRound
  have hfloor : (0 : ℤ) ≤ ⌊p * 100 * 10 ^ 1⌋ :=
    Int.floor_nonneg.mpr (by positivity)
  have hlow := floor_le_bankersRound (p * 100 * 10 ^ 1)
  have hup := bankersRound_le_ceil (p * 100 * 10 ^ 1)
  have hceil : ⌈p * 100 * 10 ^ 1⌉ ≤ 1000 := by
    have hle : p * 100 * 10 ^ 1 ≤ ((1000 : ℤ) : ℚ) := by
      push_cast
      nlinarith
    calc ⌈p * 100 * 10 ^ 1⌉ ≤ ⌈((1000 : ℤ) : ℚ)⌉ := Int.ceil_mono hle
      _ = 1000 := Int.ceil_intCast 1000
  constructor
  · apply div_nonneg _ (by norm_num : (0 : ℚ) ≤ 10 ^ 1)
    have : (0 : ℤ) ≤ bankersRound (p * 100 * 10 ^ 1) := le_trans hfloor hlow
    exact_mod_cast this
  · rw [div_le_iff₀ (by norm_num : (0 : ℚ) < 10 ^ 1)]
    have : bankersRound (p * 100 * 10 ^ 1) ≤ 1000 := le_trans hup hceil
    have hq : (bankersRound (p * 100 * 10 ^ 1) : ℚ) ≤ 1000 := by
      exact_mod_cast this
    linarith

/-- Summed over a list, the per-entry 1/20 rounding error accumulates
to at most `length / 20`. -/
lemma sum_pyRound_pct_err (l : List ℚ) :
    |(l.map (fun p => pyRound (p * 100) 1)).sum - 100 * l.sum| ≤
      l.length * (1 / 20) := by
  induction l with
  | nil => simp
  | cons x xs ih =>
      have hx := abs_pyRound_one_sub (x * 100)
      simp only [List.map_cons, List.sum_cons, List.length_cons]
      have hsplit : pyRound (x * 100) 1 +
          (xs.map (fun p => pyRound (p * 100) 1)).sum - 100 * (x + xs.sum) =
          (pyRound (x * 100) 1 - x * 100) +
            ((xs.map (fun p => pyRound (p * 100) 1)).sum - 100 * xs.sum) := by
        ring
      rw [hsplit]
      calc |(pyRound (x * 100) 1 - x * 100) +
            ((xs.map (fun p => pyRound (p * 100) 1)).sum - 100 * xs.sum)| ≤
          |pyRound (x * 100) 1 - x * 100| +
            |(xs.map (fun p => pyRound (p * 100) 1)).sum - 100 * xs.sum| :=
            abs_add _ _
        _ ≤ 1 / 20 + xs.length * (1 / 20) := by
            exact add_le_add hx ih
        _ = ((xs.length + 1 : ℕ) : ℚ) * (1 / 20) := by push_cast; ring

/-- Projecting the values out of the label-keyed association list built
by `predict_status` recovers the rounded probability list, when the
label list and the probability vector have equal length. -/
lemma zip_pct_map_snd (f : ℚ → ℚ) :
    ∀ (ls : List String) (ps : List ℚ), ls.length = ps.length →
      ((ls.zip ps).map (fun lp => (lp.1, f lp.2))).map Prod.snd = ps.map f := by
  intro ls
  induction ls with
  | nil =>
      intro ps h
      cases ps with
      | nil => rfl
      | cons p ps => simp at h
  | cons a as ih =>
      intro ps h
      cases ps with
      | nil => simp at h
      | cons p ps =>
          simp only [List.zip_cons_cons, List.map_cons]
          rw [ih ps (by simpa using h)]

/-- C9: assuming the classifier returns a probability vector with
non-negative entries summing to 1 (and one entry per class label, at
most the four canonical labels), every probability in the returned
mapping is in [0, 100], their sum is within 0.5 of 100, and the
confidence equals the largest class probability rescaled to a
percentage and rounded to one decimal place. -/
theorem c9_probability_contract (model : Classifier)
    (scaler : Option Scaler) (age cortisol estrogen testosterone : ℚ)
    (gender : Gender) (time_of_day : TimeOfDay) (fs probs : List ℚ)
    (r : PredictionResult)
    (hfs : applyScaler scaler (predictFeatureRow age cortisol estrogen
      testosterone gender time_of_day) = Except.ok fs)
    (hp : model.predictProba fs = probs)
    (hlen : model.classes_labels_.length = probs.length)
    (hnn : ∀ p ∈ probs, 0 ≤ p)
    (hsum : probs.sum = 1)
    (hn : probs.length ≤ 4)
    (hr : predict_status model scaler age cortisol estrogen testosterone
      gender time_of_day = Except.ok r) :
    (∀ q ∈ r.probabilities.map Prod.snd, 0 ≤ q ∧ q ≤ 100) ∧
    |(r.probabilities.map Prod.snd).sum - 100| ≤ 1 / 2 ∧
    r.confidence = pyRound (pyMax probs * 100) 1 := by
  have key : predict_status model scaler age cortisol estrogen
      testosterone gender time_of_day =
      Except.ok
        { status := model.classes_labels_.getD (model.predictIdx fs) ""
          confidence := pyRound (pyMax probs * 100) 1
          probabilities := (model.classes_labels_.zip probs).map
            (fun lp => (lp.1, pyRound (lp.2 * 100) 1))
          hormone_analysis := analyze_hormones cortisol estrogen
            testosterone gender time_of_day } := by
    simp only [predict_status]
    rw [hfs]
    dsimp only []
    rw [hp]
  have hre : _ = r := Except.ok.inj (key.symm.trans hr)
  subst hre
  have hsnd : ((model.classes_labels_.zip probs).map
        (fun lp => (lp.1, pyRound (lp.2 * 100) 1))).map Prod.snd =
      probs.map (fun p => pyRound (p * 100) 1) :=
    zip_pct_map_snd (fun p => pyRound (p * 100) 1) model.classes_labels_ probs hlen
  refine ⟨?_, ?_, rfl⟩
  · show ∀ q ∈ ((model.classes_labels_.zip probs).map
        (fun lp => (lp.1, pyRound (lp.2 * 100) 1))).map Prod.snd,
      0 ≤ q ∧ q ≤ 100
    rw [hsnd]
    intro q hq
    obtain ⟨p, hpmem, rfl⟩ := List.mem_map.mp hq
    have hple : p ≤ 1 := by
      have := List.single_le_sum hnn p hpmem
      rwa [hsum] at this
    exact pyRound_pct_bounds p (hnn p hpmem) hple
  · show |(((model.classes_labels_.zip probs).map
        (fun lp => (lp.1, pyRound (lp.2 * 100) 1))).map Prod.snd).sum -
          100| ≤ 1 / 2
    rw [hsnd]
    have herr := sum_pyRound_pct_err probs
    rw [hsum, mul_one] at herr
    have hlenq : ((probs.length : ℕ) : ℚ) ≤ 4 := by exact_mod_cast hn
    have : ((probs.length : ℕ) : ℚ) * (1 / 20) ≤ 4 * (1 / 20) := by
      linarith
    linarith

/-- C9 witness: the stand-in classifier returns the probability vector
[1, 0, 0, 0]; its rescaled entries are [100, 0, 0, 0], they sum to 100
exactly, and the confidence is 100. -/
theorem c9_witness :
    (∀ q ∈ ([("Normal", (100 : ℚ)), ("Mild Imbalance", 0),
        ("Moderate Imbalance", 0),
        ("Severe Imbalance", 0)].map Prod.snd), 0 ≤ q ∧ q ≤ 100) ∧
    |(([("Normal", (100 : ℚ)), ("Mild Imbalance", 0),
        ("Moderate Imbalance", 0),
        ("Severe Imbalance", 0)].map Prod.snd).sum - 100)| ≤ 1 / 2 ∧
    (100 : ℚ) = pyRound (pyMax [1, 0, 0, 0] * 100) 1 :=
  c9_probability_contract constClassifier none 35 5.0 2.0 100.0
    Gender.Male TimeOfDay.Morning
    (predictFeatureRow 35 5.0 2.0 100.0 Gender.Male TimeOfDay.Morning)
    [1, 0, 0, 0]
    { status := "Normal"
      confidence := 100
      probabilities := [("Normal", 100), ("Mild Imbalance", 0),
        ("Moderate Imbalance", 0), ("Severe Imbalance", 0)]
      hormone_analysis := analyze_hormones 5.0 2.0 100.0 Gender.Male
        TimeOfDay.Morning }
    rfl rfl rfl (by decide) (by decide) (by decide) (by rfl)
